import Mathlib

/-!
Shallow embedding of `src/function_app.py` (security incident processor).

JSON values are modelled by the inductive `Json`; Python `dict.get` with and
without defaults, Python truthiness and the `or` operator are modelled
explicitly.  Non-deterministic external services (the generative model, the
document store client, `uuid.uuid4()`, `datetime.utcnow()`) are passed in as
explicit parameters/oracles; a raised Python exception is modelled as the
`.error` branch of `Except String _`.
-/

/-- JSON values (Python dict/list/str/int/bool/None) as used by the app. -/
inductive Json where
  | null
  | str (s : String)
  | num (n : Int)
  | bool (b : Bool)
  | arr (xs : List Json)
  | obj (fields : List (String × Json))

namespace Json

/-- Python `d[k]` lookup semantics on a dict: first matching key, `none`
when the key is absent or the value is not a dict. -/
def lookup : Json → String → Option Json
  | .obj fs, k => fs.lookup k
  | _, _ => none

/-- Python `d.get(k, default)`: `default` exactly when the key is absent. -/
def getD (j : Json) (k : String) (d : Json) : Json := (j.lookup k).getD d

/-- Python `d.get(k)`: `None` when the key is absent. -/
def get (j : Json) (k : String) : Json := j.getD k .null

/-- Python truthiness of a JSON value (`None`, `""`, `0`, `False`, `[]`,
`{}` are falsy). -/
def truthy : Json → Bool
  | .null => false
  | .str s => s != ""
  | .num n => n != 0
  | .bool b => b
  | .arr [] => false
  | .arr (_ :: _) => true
  | .obj [] => false
  | .obj (_ :: _) => true

end Json

/-- Python `a or b`: `a` when `a` is truthy, otherwise `b`. -/
def pyOr (a b : Json) : Json := if a.truthy then a else b

/-- Python `d[k] = v` on a dict: replace the value at the first occurrence of
`k`, or append the binding when `k` is absent.  Non-dicts are unchanged
(the code only assigns into dicts). -/
def setField (j : Json) (k : String) (v : Json) : Json :=
  match j with
  | .obj fs =>
      if (fs.lookup k).isSome then
        .obj (fs.map (fun p => if p.1 = k then (p.1, v) else p))
      else
        .obj (fs ++ [(k, v)])
  | j => j

/-- The `SEVERITY_LEVELS` dict (function_app.py lines 66-72). -/
def SEVERITY_LEVELS : List (String × Int) :=
  [("Informational", 1), ("Low", 2), ("Medium", 3), ("High", 4), ("Critical", 5)]

/-- Whether a JSON value is hashable as a Python dict key: `None`, strings,
numbers and booleans are; lists and dicts are not — `SEVERITY_LEVELS.get`
raises `TypeError` on them (checked in `store_incident` before
`severityLevelsGet`'s value is used). -/
def severityLevelHashable : Json → Bool
  | .arr _ => false
  | .obj _ => false
  | _ => true

/-- The value of `SEVERITY_LEVELS.get(key, 0)` for a hashable JSON key
(`None`, bool, int or str): the table entry for a member string, `0` for
any other hashable value.  For an unhashable key (a JSON array or object)
the Python call raises `TypeError` instead of producing a value; that case
is captured by `severityLevelHashable` and guarded in `store_incident`, so
the catch-all `0` below is only ever consulted for hashable keys in the
embedded pipeline. -/
def severityLevelsGet (sev : Json) : Int :=
  match sev with
  | .str s => (SEVERITY_LEVELS.lookup s).getD 0
  | _ => 0

/-- Whether `', '.join(tactics)` raises `TypeError` (evaluated only when
`tactics` is truthy, line 224): joining a string iterates its characters,
joining a dict iterates its keys (always strings here), joining a list
raises when any element is not a string, and a number or boolean is not
iterable at all. -/
def pyJoinRaises : Json → Bool
  | .arr xs => xs.any (fun x => match x with | .str _ => false | _ => true)
  | .str _ => false
  | .obj _ => false
  | _ => true

/-- Whether `len(x)` is defined (line 225 evaluates it unconditionally):
strings, lists and dicts have a length; `None`, numbers and booleans raise
`TypeError`. -/
def pyHasLen : Json → Bool
  | .str _ => true
  | .arr _ => true
  | .obj _ => true
  | _ => false

/-- Whether `entities[:5]` raises (evaluated only when `entities` is truthy,
line 228): slicing a dict raises `TypeError: unhashable type: slice`;
strings and lists slice fine. -/
def pySliceRaises : Json → Bool
  | .obj _ => true
  | _ => false

/-- The field extraction and prompt construction of
`analyze_incident` lines 190-228, which run **before** the `try` block that
begins at line 230: a non-dict incident raises `AttributeError` at
`incident_data.get(...)`; the f-string then evaluates, left to right,
`', '.join(tactics)` when `tactics` is truthy, `len(entities)`
unconditionally, and `entities[:5]` when `entities` is truthy — each can
raise `TypeError`.  Any such exception propagates to the caller (the
fallback only covers exceptions inside the `try`). -/
def analyze_incident_prompt (incident_data : Json) : Except String Unit :=
  match incident_data with
  | .obj _ =>
      let tactics := incident_data.getD "tactics" (.arr [])
      let entities := incident_data.getD "relatedEntities" (.arr [])
      if tactics.truthy && pyJoinRaises tactics then
        .error "TypeError: sequence item: expected str instance"
      else if !(pyHasLen entities) then
        .error "TypeError: object has no len"
      else if entities.truthy && pySliceRaises entities then
        .error "TypeError: unhashable type: slice"
      else .ok ()
  | _ => .error "AttributeError: get"

/-- Embedding of `SentinelIncidentProcessor.analyze_incident`
(lines 174-260).  The extraction and prompt construction (lines 190-228)
run before the `try` block and their exceptions propagate to the caller
(`.error`).  Once inside the `try`, the Azure OpenAI chat call plus
`json.loads` of its content is the oracle `modelOutcome`: `.ok analysis` is
a successfully parsed response, `.error e` is any exception in the `try`
block (network failure, timeout, unparseable content), answered by the
hard-coded default analysis seeded from the extracted `severity`
(line 192: `get("severity", "Unknown")`). -/
def analyze_incident (incident_data : Json) (modelOutcome : Except String Json) :
    Except String Json :=
  match analyze_incident_prompt incident_data with
  | .error e => .error e
  | .ok _ =>
      let severity := incident_data.getD "severity" (.str "Unknown")
      match modelOutcome with
      | .ok analysis => .ok analysis
      | .error e =>
          .ok (.obj [
            ("risk_level", severity),
            ("immediate_actions", .arr [.str "Investigate incident", .str "Assess impact"]),
            ("short_term_actions", .arr [.str "Review logs", .str "Document findings"]),
            ("long_term_actions", .arr [.str "Update security policies"]),
            ("required_teams", .arr [.str "Security Operations"]),
            ("estimated_resolution_hours", .num 24),
            ("business_impact", .str "Unable to determine"),
            ("analysis_summary", .str ("Error during analysis: " ++ e))])

/-- The document built by `SentinelIncidentProcessor.store_incident`
(lines 280-299), i.e. the value of the document expression when line 286
does not raise.  `newId` models `str(uuid.uuid4())` and `now` models
`datetime.utcnow().isoformat()`.  `store_incident` checks
`severityLevelHashable` first and propagates the `TypeError` of an
unhashable severity key, so this builder is only consulted for payloads on
which the construction actually completes. -/
def store_incident_document (newId now : String) (incident_data analysis : Json) : Json :=
  .obj [
    ("id", .str newId),
    ("document_type", .str "security_incident"),
    ("incident_id", pyOr (incident_data.get "incidentId") (incident_data.get "id")),
    ("title", pyOr (incident_data.get "title") (incident_data.get "incidentName")),
    ("severity", incident_data.get "severity"),
    ("severity_level", .num (severityLevelsGet (incident_data.getD "severity" (.str "Unknown")))),
    ("status", incident_data.getD "status" (.str "New")),
    ("created_time", incident_data.getD "createdTimeUtc" (.str now)),
    ("last_modified_time", incident_data.getD "lastModifiedTimeUtc" (.str now)),
    ("description", incident_data.get "description"),
    ("tactics", incident_data.getD "tactics" (.arr [])),
    ("techniques", incident_data.getD "techniques" (.arr [])),
    ("entities", incident_data.getD "relatedEntities" (.arr [])),
    ("alerts", incident_data.getD "relatedAlerts" (.arr [])),
    ("analysis", analysis),
    ("action_plan_status", .str "Pending"),
    ("processed_time", .str now),
    ("raw_data", incident_data)]

/-- The `"id"` field of a stored document, when it is a string. -/
def docId (d : Json) : Option String :=
  match d.lookup "id" with
  | some (.str s) => some s
  | _ => none

/-- Cosmos DB `container.create_item(document)`: inserts a new document; it
raises a conflict error when a document with the same `id` already exists
(it never overwrites).  The container is modelled as the list of its
documents in insertion order. -/
def create_item (store : List Json) (document : Json) : Except String (List Json) :=
  match docId document with
  | none => .error "BadRequest: id"
  | some i =>
      if store.any (fun d => docId d == some i) then .error "Conflict"
      else .ok (store ++ [document])

/-- Embedding of `SentinelIncidentProcessor.store_incident` (lines 262-314):
building the document raises `TypeError` at line 286 when the severity key
is unhashable (the `except` at line 312 logs and re-raises, storing
nothing); otherwise it builds the document with a freshly generated random
`id` and calls `create_item`, returning the success envelope and the new
store contents, re-raising any storage exception. -/
def store_incident (newId now : String) (store : List Json)
    (incident_data analysis : Json) : Except String (Json × List Json) :=
  if severityLevelHashable (incident_data.getD "severity" (.str "Unknown")) then
    let document := store_incident_document newId now incident_data analysis
    match create_item store document with
    | .error e => .error e
    | .ok newStore =>
        .ok (.obj [
          ("success", .bool true),
          ("document_id", .str newId),
          ("incident_id", document.get "incident_id")], newStore)
  else
    .error "TypeError: unhashable type"

/-- Python whitespace for `str.strip()` (the ASCII whitespace class). -/
def pyIsSpace (c : Char) : Bool :=
  c = ' ' || c = '\t' || c = '\n' || c = '\r' || c = '\x0b' || c = '\x0c'

/-- Python `s.strip()`: remove leading and trailing whitespace. -/
def pyStrip (s : String) : String :=
  String.mk (((s.toList.dropWhile pyIsSpace).reverse.dropWhile pyIsSpace).reverse)

/-- One pass of `re.sub(pat + "\n?", "", s)` for a literal pattern
`p :: ps`: left-to-right scan over the original characters, removing each
non-overlapping occurrence of the pattern together with one directly
following newline; text exposed by a removal is not rescanned, matching
`re.sub`.  `fuel` bounds the recursion; the wrapper passes the string length,
which always suffices since every step consumes at least one character. -/
def stripPatAux (p : Char) (ps : List Char) : Nat → List Char → List Char
  | 0, l => l
  | _ + 1, [] => []
  | fuel + 1, c :: rest =>
      if c = p ∧ rest.take ps.length = ps then
        let after := rest.drop ps.length
        stripPatAux p ps fuel (if after.head? = some '\n' then after.tail else after)
      else
        c :: stripPatAux p ps fuel rest

/-- Model of `re.sub(pat + "\n?", "", s)` for a literal, newline-free pattern `pat`. -/
def pySubRemove (pat : String) (s : String) : String :=
  match pat.toList with
  | [] => s
  | p :: ps => String.mk (stripPatAux p ps s.length s.toList)

/-- The code-fence post-processing in `generate_incident_sql`
(lines 401-402): remove every ```sql fence opener and every ``` fence. -/
def stripFences (s : String) : String :=
  pySubRemove "```" (pySubRemove "```sql" s)

/-- Embedding of `SentinelIncidentProcessor.generate_incident_sql` (lines 346-409).
The chat-completion call is the oracle `translate` (its `.error` branch is a
raised exception, which the function re-raises); on success the content is
stripped (`.strip()`, then the fence removals) and returned unchecked —
there is no validation of the generated SQL. -/
def generate_incident_sql (translate : String → Except String String)
    (natural_language_query : String) : Except String String :=
  match translate natural_language_query with
  | .error e => .error e
  | .ok content => .ok (stripFences (pyStrip content))

/-- Embedding of `SentinelIncidentProcessor.query_incidents` (lines 316-344): translate
the natural-language query to SQL, then execute whatever SQL came back
against the container (`execQuery` models `container.query_items` plus the
result iteration; its `.error` branch is a raised exception, re-raised). -/
def query_incidents (translate : String → Except String String)
    (execQuery : String → Except String (List Json))
    (query : String) : Except String (List Json) :=
  match generate_incident_sql translate query with
  | .error e => .error e
  | .ok sql_query => execQuery sql_query

/-- The numeric `severity_level` of a stored document (0 when absent or
non-numeric), used to model the `ORDER BY c.severity_level DESC` clause. -/
def severityLevelValue (d : Json) : Int :=
  match d.get "severity_level" with
  | .num n => n
  | _ => 0

/-- Whether a stored document satisfies
`c.document_type = "security_incident"`. -/
def isSecurityIncidentDoc (d : Json) : Bool :=
  match d.lookup "document_type" with
  | some (.str s) => s == "security_incident"
  | _ => false

/-- Embedding of `SentinelIncidentProcessor.get_sample_incidents` (lines 411-439): the
container evaluation of the fixed query
`SELECT TOP {limit} * FROM c WHERE c.document_type = 'security_incident'
ORDER BY c.severity_level DESC` — filter on the type discriminator, sort by
`severity_level` descending, take the first `limit` documents. -/
def get_sample_incidents (store : List Json) (limit : Nat) : List Json :=
  (((store.filter isSecurityIncidentDoc).mergeSort
      (fun a b => decide (severityLevelValue b ≤ severityLevelValue a))).take limit)

/-- An HTTP response: status code and JSON body (the `json.dumps`
serialisation step is identified with the JSON value it serialises). -/
structure HttpResponse where
  status : Nat
  body : Json

/-- Embedding of `http_get_sample_incidents` (lines 692-730).  `limitParam` is the
outcome of `int(req.params.get('limit', '10'))` — `.error` when `int()`
raised.  The handler clamps the limit with `min(max(limit, 1), 100)` and
returns the sample envelope; any exception yields the 500 envelope. -/
def http_get_sample_incidents (store : List Json) (limitParam : Except String Int)
    (now : String) : HttpResponse :=
  match limitParam with
  | .error e =>
      { status := 500
      , body := .obj [
          ("error", .str ("Internal server error: " ++ e)),
          ("success", .bool false),
          ("timestamp", .str now)] }
  | .ok limit0 =>
      let limit : Int := min (max limit0 1) 100
      let sample_incidents := get_sample_incidents store limit.toNat
      { status := 200
      , body := .obj [
          ("sample_incidents", .arr sample_incidents),
          ("count", .num sample_incidents.length),
          ("success", .bool true),
          ("timestamp", .str now)] }

/-- The default query string of `http_query_incidents` (line 529). -/
def DEFAULT_INCIDENT_QUERY : String :=
  "SELECT * FROM c WHERE c.document_type = \"security_incident\" ORDER BY c.severity_level DESC"

/-- Embedding of `http_query_incidents` (lines 520-558): a missing `query` parameter is
replaced by `DEFAULT_INCIDENT_QUERY` (there is no emptiness check), the
query string is handed to `query_incidents`, and any exception yields the
500 failure envelope. -/
def http_query_incidents (params : List (String × String))
    (translate : String → Except String String)
    (execQuery : String → Except String (List Json))
    (now : String) : HttpResponse :=
  let query := (params.lookup "query").getD DEFAULT_INCIDENT_QUERY
  match query_incidents translate execQuery query with
  | .ok incidents =>
      { status := 200
      , body := .obj [
          ("success", .bool true),
          ("query", .str query),
          ("incidents", .arr incidents),
          ("count", .num incidents.length),
          ("timestamp", .str now)] }
  | .error e =>
      { status := 500
      , body := .obj [
          ("success", .bool false),
          ("error", .str e),
          ("timestamp", .str now)] }

/-- Cosmos DB `container.read_item(item=id, partition_key=id)`: the
document whose `id` equals `document_id`, or a raised not-found error. -/
def read_item (store : List Json) (document_id : String) : Except String Json :=
  match store.find? (fun d => docId d == some document_id) with
  | some document => .ok document
  | none => .error ("NotFound: " ++ document_id)

/-- Cosmos DB `container.replace_item(item=id, body=document)`: replace the
document whose `id` equals `document_id`. -/
def replace_item (store : List Json) (document_id : String) (body : Json) : List Json :=
  store.map (fun d => if docId d == some document_id then body else d)

/-- The `try` block of `http_update_incident_actions` (lines 565-609):
validate the two mandatory fields (Python truthiness), then
read-modify-write the target document.  `.error` is a raised exception
(body parse failure, not-found read, non-dict body, non-string id). -/
def http_update_incident_actions_try (req_body : Except String Json)
    (store : List Json) (now : String) : Except String (HttpResponse × List Json) :=
  match req_body with
  | .error e => .error e
  | .ok body =>
      match body with
      | .obj _ =>
          let document_id := body.get "document_id"
          let action_status := body.get "action_status"
          let notes := body.getD "notes" (.str "")
          if !document_id.truthy || !action_status.truthy then
            .ok ({ status := 400
                 , body := .obj [("error",
                     .str "Missing required fields: document_id, action_status")] },
                 store)
          else
            match document_id with
            | .str did =>
                match read_item store did with
                | .error e => .error e
                | .ok document =>
                    let document := setField document "action_plan_status" action_status
                    let document := setField document "action_plan_notes" notes
                    let document := setField document "action_plan_updated" (.str now)
                    let newStore := replace_item store did document
                    .ok ({ status := 200
                         , body := .obj [
                             ("success", .bool true),
                             ("document_id", .str did),
                             ("action_status", action_status),
                             ("timestamp", .str now)] },
                         newStore)
            | _ => .error "TypeError: item"
      | _ => .error "AttributeError: get"

/-- Embedding of `http_update_incident_actions` (lines 560-621): the `try` block plus the
generic exception handler, which renders every raised exception as the same
500 failure envelope and leaves the store untouched. -/
def http_update_incident_actions (req_body : Except String Json)
    (store : List Json) (now : String) : HttpResponse × List Json :=
  match http_update_incident_actions_try req_body store now with
  | .ok r => r
  | .error e =>
      ({ status := 500
       , body := .obj [
           ("success", .bool false),
           ("error", .str e),
           ("timestamp", .str now)] },
       store)

/-- Python `repr` of a JSON value (`str` and `repr` agree on non-strings):
used to model how values are rendered inside f-strings. -/
def pyRepr : Json → String
  | .null => "None"
  | .str s => "\x27" ++ s ++ "\x27"
  | .num n => toString n
  | .bool true => "True"
  | .bool false => "False"
  | .arr xs =>
      "[" ++ String.intercalate ", " (xs.attach.map (fun x => pyRepr x.1)) ++ "]"
  | .obj fs =>
      "\x7b" ++ String.intercalate ", "
        (fs.attach.map (fun p => "\x27" ++ p.1.1 ++ "\x27: " ++ pyRepr p.1.2)) ++ "\x7d"
decreasing_by
  · have h := List.sizeOf_lt_of_mem x.2
    simp
    omega
  · have h := List.sizeOf_lt_of_mem p.2
    obtain ⟨⟨a, b⟩, hp⟩ := p
    simp at h ⊢
    omega

/-- Python `str` of a JSON value: the string itself for strings, `repr`
otherwise — the f-string rendering used by the MCP summary. -/
def pyStr (j : Json) : String :=
  match j with
  | .str s => s
  | j => pyRepr j

/-- One numbered incident line of the MCP summary (lines 660-668). -/
def mcp_incident_line (i : Nat) (incident : Json) : String :=
  let base :=
    "\n" ++ toString (i + 1) ++ ". " ++
      pyStr (incident.getD "title" (.str "Unknown")) ++ "\n" ++
    "   - Severity: " ++ pyStr (incident.getD "severity" (.str "Unknown")) ++ "\n" ++
    "   - Risk Level: " ++
      pyStr ((incident.getD "analysis" (.obj [])).getD "risk_level" (.str "Not assessed")) ++ "\n" ++
    "   - Status: " ++ pyStr (incident.getD "action_plan_status" (.str "Unknown")) ++ "\n" ++
    "   - Created: " ++ pyStr (incident.getD "created_time" (.str "Unknown")) ++ "\n"
  match (incident.getD "analysis" (.obj [])).getD "immediate_actions" (.arr []) with
  | .arr (a :: rest) =>
      base ++ "   - Immediate Actions: " ++
        String.intercalate ", " (((a :: rest).take 2).map pyStr) ++ "\n"
  | _ => base

/-- The human-readable digest built by `mcp_query_incidents`
(lines 654-673): header, first five incidents, and a "more" tail. -/
def mcp_summary (query : String) (incidents : List Json) : String :=
  let head := "Query: " ++ query ++ "\n" ++
    "Results: " ++ toString incidents.length ++ " incidents found\n\n"
  if incidents.isEmpty then
    head ++ "No incidents matching your query.\n"
  else
    head ++ "Incident Summary:\n" ++
      String.join ((incidents.take 5).enum.map (fun p => mcp_incident_line p.1 p.2)) ++
      (if incidents.length > 5 then
        "\n... and " ++ toString (incidents.length - 5) ++ " more incidents\n"
      else "")

/-- Model of `args.get("query", "").strip()` before trimming: returns the raw string,
raising (`.error`) when `args` is not a dict or the value is not a string. -/
def argsGetQuery : Json → Except String String
  | .obj fs =>
      match (fs.lookup "query").getD (.str "") with
      | .str s => .ok s
      | _ => .error "AttributeError: strip"
  | _ => .error "AttributeError: get"

/-- The `try` block of `mcp_query_incidents` (lines 636-682).  `parseReq` is
the outcome of `json.loads(req)`; an empty (after `strip()`) or missing
`query` argument short-circuits to the rejection envelope before any
translation; otherwise the query pipeline runs and the success envelope is
built. -/
def mcp_try_body (parseReq : Except String Json)
    (translate : String → Except String String)
    (execQuery : String → Except String (List Json))
    (now : String) : Except String Json :=
  match parseReq with
  | .error e => .error e
  | .ok req_data =>
      match req_data with
      | .obj _ =>
          let args := req_data.getD "arguments" (.obj [])
          match argsGetQuery args with
          | .error e => .error e
          | .ok raw =>
              let query := pyStrip raw
              if query = "" then
                .ok (.obj [
                  ("error", .str "Query parameter is required"),
                  ("success", .bool false)])
              else
                match query_incidents translate execQuery query with
                | .error e => .error e
                | .ok incidents =>
                    .ok (.obj [
                      ("success", .bool true),
                      ("query", .str query),
                      ("summary", .str (mcp_summary query incidents)),
                      ("incidents", .arr incidents),
                      ("count", .num incidents.length),
                      ("timestamp", .str now)])
      | _ => .error "AttributeError: get"

/-- Embedding of `mcp_query_incidents` (lines 631-690): the `try` block plus the catch-all
handler, which renders any raised exception as the failure envelope.  The
tool therefore always returns an envelope, never raises. -/
def mcp_query_incidents (parseReq : Except String Json)
    (translate : String → Except String String)
    (execQuery : String → Except String (List Json))
    (now : String) : Json :=
  match mcp_try_body parseReq translate execQuery now with
  | .ok result => result
  | .error e =>
      .obj [
        ("error", .str ("Error querying incidents: " ++ e)),
        ("success", .bool false),
        ("timestamp", .str now)]

/-- The field extraction of `sentinel_receiver` (lines 469-476). -/
structure NormalizedIncident where
  incident : Json
  title : Json
  severity : Json
  incident_id : Json

/-- Lines 471-476 of `sentinel_receiver`: `body.get("properties")` raises
`AttributeError` when the parsed body is not a dict, and the subsequent
`incident.get(...)` calls raise `AttributeError` when a truthy
`properties` value is not itself a dict (the receiver's `except` then
answers 400).  On a dict incident, extract title / severity / incident id
with the alias precedence and defaults of the source (`or`-based
fallbacks, severity defaulting to `"Unknown"`). -/
def sentinel_normalize (body : Json) : Except String NormalizedIncident :=
  match body with
  | .obj _ =>
      match pyOr (body.get "properties") body with
      | .obj gs =>
          let incident : Json := .obj gs
          .ok { incident := incident
              , title := pyOr (incident.get "title") (incident.get "incidentName")
              , severity := incident.getD "severity" (.str "Unknown")
              , incident_id := pyOr (incident.get "incidentId") (incident.get "id") }
      | _ => .error "AttributeError: get"
  | _ => .error "AttributeError: get"

/-! Spec-side definitions, written from the wording of the specification
(for comparison against the embedded code). -/

/-- Spec-side: the fixed severity rank demanded by the spec
(Informational=1, Low=2, Medium=3, High=4, Critical=5, otherwise 0). -/
def specSeverityRank (sev : Json) : Int :=
  match sev with
  | .str s =>
      if s = "Informational" then 1
      else if s = "Low" then 2
      else if s = "Medium" then 3
      else if s = "High" then 4
      else if s = "Critical" then 5
      else 0
  | _ => 0

/-- Whether a JSON value is an array whose elements are all strings. -/
def isStringArr : Json → Bool
  | .arr xs => xs.all (fun x => match x with | .str _ => true | _ => false)
  | _ => false

/-- Spec-side: a well-formed `ActionPlan` per the spec — all eight required
fields present with correct types, and `risk_level` a member of
Critical/High/Medium/Low. -/
def wellFormedActionPlan (j : Json) : Bool :=
  (match j.lookup "risk_level" with
   | some (.str s) => s == "Critical" || s == "High" || s == "Medium" || s == "Low"
   | _ => false)
  && isStringArr (j.get "immediate_actions")
  && isStringArr (j.get "short_term_actions")
  && isStringArr (j.get "long_term_actions")
  && isStringArr (j.get "required_teams")
  && (match j.lookup "estimated_resolution_hours" with
      | some (.num _) => true
      | _ => false)
  && (match j.lookup "business_impact" with
      | some (.str _) => true
      | _ => false)
  && (match j.lookup "analysis_summary" with
      | some (.str _) => true
      | _ => false)

/-- Whether `pat` occurs as a contiguous substring of `l`. -/
def listHasInfix (pat l : List Char) : Bool :=
  (List.range (l.length + 1)).any (fun i => decide ((l.drop i).take pat.length = pat))

/-- Spec-side: whether a generated SQL string contains the mandatory
record-type filter `c.document_type = 'security_incident'`. -/
def hasRecordTypeFilter (sql : String) : Bool :=
  listHasInfix ("c.document_type = \x27security_incident\x27").toList sql.toList

/-- The top-level keys of a JSON object (for comparing envelope shapes). -/
def fieldKeys : Json → List String
  | .obj fs => fs.map Prod.fst
  | _ => []

/-- Whether a stored document's `incident_id` equals the given business key. -/
def incidentIdIs (iid : String) (d : Json) : Bool :=
  match d.lookup "incident_id" with
  | some (.str s) => s == iid
  | _ => false

/-- The code's `SEVERITY_LEVELS` table agrees pointwise with the spec's
fixed rank. -/
theorem severityLevelsGet_eq_specSeverityRank (v : Json) :
    severityLevelsGet v = specSeverityRank v := by
  cases v with
  | str s =>
      simp only [severityLevelsGet, specSeverityRank, SEVERITY_LEVELS, List.lookup]
      repeat' split
      all_goals simp_all
  | null => rfl
  | num n => rfl
  | bool b => rfl
  | arr xs => rfl
  | obj fs => rfl

/-- C6 counterexample: the claim says the stored `severity_level` equals 0
for any unrecognized severity, but a JSON-array severity is an unhashable
dict key: `SEVERITY_LEVELS.get` at line 286 raises `TypeError`,
`store_incident` re-raises it, and nothing at all is stored — no document
with `severity_level = 0` exists for this raw severity value. -/
theorem c6_counterexample_unhashable_severity_raises :
    store_incident "uuid-9" "2025-06-01T10:00:00" []
        (.obj [("severity", .arr [])]) (.obj [])
      = .error "TypeError: unhashable type" := by
  rfl

/-- C6 (amended): for every hashable raw severity value — a string, number,
boolean, or null/absent severity — the stored `severity_level` equals the
fixed rank Informational=1, Low=2, Medium=3, High=4, Critical=5, and 0 for
any other such value; for an unhashable severity (a JSON array or object)
the lookup at line 286 raises `TypeError`, `store_incident` re-raises, and
no document is stored. -/
theorem c6_amended_hashable_severity_rank (newId now : String) (analysis v : Json)
    (rest fs : List (String × Json)) (store : List Json) :
    (severityLevelHashable v = true →
      (store_incident_document newId now (.obj (("severity", v) :: rest)) analysis).get
        "severity_level" = .num (specSeverityRank v))
    ∧ (fs.lookup "severity" = none →
      (store_incident_document newId now (.obj fs) analysis).get
        "severity_level" = .num 0)
    ∧ (severityLevelHashable v = false →
      store_incident newId now store (.obj (("severity", v) :: rest)) analysis
        = .error "TypeError: unhashable type") := by
  refine ⟨?_, ?_, ?_⟩
  · intro _
    simp [store_incident_document, Json.get, Json.getD, Json.lookup, List.lookup,
      severityLevelsGet_eq_specSeverityRank]
  · intro habs
    simp [store_incident_document, Json.get, Json.getD, Json.lookup, List.lookup, habs]
    simp [severityLevelsGet, SEVERITY_LEVELS, List.lookup]
  · intro hv
    simp [store_incident, Json.getD, Json.lookup, List.lookup, hv]

/-- C6 witness: a `Critical` severity is stored with rank 5, an absent
severity with rank 0, and an object severity makes the storage call raise. -/
theorem c6_amended_hashable_severity_rank_witness :
    ((store_incident_document "u" "t" (.obj [("severity", .str "Critical")]) (.obj [])).get
        "severity_level" = .num (specSeverityRank (.str "Critical"))
      ∧ (store_incident_document "u" "t" (.obj []) (.obj [])).get
          "severity_level" = .num 0
      ∧ store_incident "u" "t" [] (.obj [("severity", .obj [("a", .num 1)])]) (.obj [])
          = .error "TypeError: unhashable type")
    ∧ specSeverityRank (.str "Critical") = 5 :=
  ⟨⟨(c6_amended_hashable_severity_rank "u" "t" (.obj []) (.str "Critical") [] [] []).1 rfl,
    (c6_amended_hashable_severity_rank "u" "t" (.obj []) (.str "Critical") [] [] []).2.1 rfl,
    (c6_amended_hashable_severity_rank "u" "t" (.obj [])
      (.obj [("a", .num 1)]) [] [] []).2.2 rfl⟩,
   by decide⟩

/-- C9: every document written by the ingest path carries
`document_type = "security_incident"`, an initial `action_plan_status` of
`"Pending"`, a `processed_time` equal to the processing timestamp, and
`raw_data` equal to the exact input payload. -/
theorem c9_document_invariants (newId now : String) (incident_data analysis : Json) :
    (store_incident_document newId now incident_data analysis).get "document_type"
        = .str "security_incident"
    ∧ (store_incident_document newId now incident_data analysis).get "action_plan_status"
        = .str "Pending"
    ∧ (store_incident_document newId now incident_data analysis).get "processed_time"
        = .str now
    ∧ (store_incident_document newId now incident_data analysis).get "raw_data"
        = incident_data := by
  refine ⟨?_, ?_, ?_, ?_⟩ <;>
    simp [store_incident_document, Json.get, Json.getD, Json.lookup, List.lookup]

/-- First delivery of incident `INC-001`. -/
def c1Payload1 : Json :=
  .obj [("incidentId", .str "INC-001"), ("title", .str "First delivery")]

/-- Second (re-)delivery of incident `INC-001`, with a different payload. -/
def c1Payload2 : Json :=
  .obj [("incidentId", .str "INC-001"), ("title", .str "Second delivery")]

/-- Two consecutive `store_incident` calls for the same `incidentId`
starting from an empty container (each call generating a fresh random
document id, as the code does). -/
def c1Run : Except String (List Json) :=
  match store_incident "uuid-1" "2025-06-01T10:00:00" [] c1Payload1 (.obj []) with
  | .error e => .error e
  | .ok (_, s1) =>
      match store_incident "uuid-2" "2025-06-01T10:05:00" s1 c1Payload2 (.obj []) with
      | .error e => .error e
      | .ok (_, s2) => .ok s2

/-- C1: the claim says persisting the same `incidentId` twice leaves exactly
one stored document keyed by that `incidentId`, reflecting the second
payload.  The code instead keys each write by a freshly generated
`uuid.uuid4()` and calls `create_item`, so re-delivery of `INC-001`
accumulates a second document: after the two calls the container holds two
documents, both with `incident_id = "INC-001"`, and the first document still
reflects the first payload. -/
theorem c1_store_incident_duplicates_incident_id :
    c1Run.toOption.map
        (fun s => (s.length, s.countP (incidentIdIs "INC-001"))) = some (2, 2)
    ∧ c1Run.toOption.map (fun s => s.map (fun d => d.get "title"))
        = some [.str "First delivery", .str "Second delivery"] := by
  constructor <;> rfl

/-- C2 counterexample: the claim fails twice over.  An incident with no
`severity` field together with a failed model call makes `analyze_incident`
return a fallback whose `risk_level` is `"Unknown"` — not a member of
Critical/High/Medium/Low, so the result is not a well-formed `ActionPlan`;
and an incident whose `tactics` is the list `[5]` makes the prompt
construction at line 224 (`', '.join(tactics)`, outside the `try` block)
raise `TypeError`, which propagates — the call does fail the caller. -/
theorem c2_counterexample_fallback_risk_level :
    (analyze_incident (.obj []) (.error "model unavailable")).map wellFormedActionPlan
      = .ok false
    ∧ analyze_incident (.obj [("tactics", .arr [.num 5])]) (.ok (.obj []))
      = .error "TypeError: sequence item: expected str instance" := by
  constructor <;> rfl

/-- C2 (amended): when the extraction and prompt construction of
lines 190-228 succeed — a JSON-object incident whose `tactics`, when
truthy, is a string, object, or array of strings, and whose
`relatedEntities` has a length and, when truthy, is not an object — the
call cannot fail the caller: on model failure or unparseable response it
returns the fallback plan containing all eight required fields, the seven
non-risk fields fixed and correctly typed and `risk_level` equal to the
incident's raw severity value (the string `"Unknown"` when absent), which
need not lie in Critical/High/Medium/Low; a successfully parsed model
response is returned without any validation.  When the prompt construction
raises, the exception propagates to the caller whatever the model would
have answered. -/
theorem c2_amended_partial_fallback (incident : Json) (e msg : String)
    (m : Except String Json) :
    (analyze_incident_prompt incident = .ok () →
      (analyze_incident incident (.error e)).map (fun p => p.get "risk_level")
          = .ok (incident.getD "severity" (.str "Unknown"))
      ∧ (analyze_incident incident (.error e)).map (fun p => p.get "immediate_actions")
          = .ok (.arr [.str "Investigate incident", .str "Assess impact"])
      ∧ (analyze_incident incident (.error e)).map (fun p => p.get "short_term_actions")
          = .ok (.arr [.str "Review logs", .str "Document findings"])
      ∧ (analyze_incident incident (.error e)).map (fun p => p.get "long_term_actions")
          = .ok (.arr [.str "Update security policies"])
      ∧ (analyze_incident incident (.error e)).map (fun p => p.get "required_teams")
          = .ok (.arr [.str "Security Operations"])
      ∧ (analyze_incident incident (.error e)).map
            (fun p => p.get "estimated_resolution_hours") = .ok (.num 24)
      ∧ (analyze_incident incident (.error e)).map (fun p => p.get "business_impact")
          = .ok (.str "Unable to determine")
      ∧ (analyze_incident incident (.error e)).map (fun p => p.get "analysis_summary")
          = .ok (.str ("Error during analysis: " ++ e))
      ∧ (∀ j, analyze_incident incident (.ok j) = .ok j))
    ∧ (analyze_incident_prompt incident = .error msg →
        analyze_incident incident m = .error msg) := by
  constructor
  · intro h
    refine ⟨?_, ?_, ?_, ?_, ?_, ?_, ?_, ?_, fun j => by simp [analyze_incident, h]⟩ <;>
      simp [analyze_incident, h, Except.map, Json.get, Json.getD, Json.lookup, List.lookup]
  · intro h
    simp [analyze_incident, h]

/-- C2 witness: the amended claim at concrete inputs — a plain incident with
a failed model call yields the schema-complete fallback with
`risk_level = "Unknown"`, and an incident with ill-typed tactics raises to
the caller. -/
theorem c2_amended_partial_fallback_witness :
    (analyze_incident (.obj []) (.error "down")).map (fun p => p.get "risk_level")
        = .ok ((Json.obj []).getD "severity" (.str "Unknown"))
    ∧ analyze_incident (.obj [("tactics", .num 7)]) (.ok (.obj [("x", .num 1)]))
        = .error "TypeError: sequence item: expected str instance" :=
  ⟨(c2_amended_partial_fallback (.obj []) "down" "m" (.ok (.obj []))).1 rfl |>.1,
   (c2_amended_partial_fallback (.obj [("tactics", .num 7)]) "e"
     "TypeError: sequence item: expected str instance" (.ok (.obj [("x", .num 1)]))).2 rfl⟩

/-- A document sitting in the store for the C3 counterexample. -/
def c3Doc : Json := .obj [("id", .str "doc-1"), ("title", .str "Stored incident")]

/-- C3 counterexample: when the model returns `SELECT * FROM c` — a query
with no record-type filter — `generate_incident_sql` returns it unchanged
and `query_incidents` executes it against the store instead of rejecting
it. -/
theorem c3_counterexample_unfiltered_query_executed :
    hasRecordTypeFilter "SELECT * FROM c" = false
    ∧ generate_incident_sql (fun _ => .ok "SELECT * FROM c") "show all incidents"
        = .ok "SELECT * FROM c"
    ∧ query_incidents (fun _ => .ok "SELECT * FROM c") (fun _ => .ok [c3Doc])
        "show all incidents" = .ok [c3Doc] := by
  refine ⟨?_, ?_, ?_⟩ <;> rfl

/-- C3 (amended): the translator strips code fences from the model output
and propagates model failures, but performs no validation of the generated
query: `query_incidents` executes whatever string came back — whether or
not it contains the mandatory record-type filter — and never rejects a
translator output. -/
theorem c3_amended_no_query_validation (nlq sql e : String) (docs : List Json) :
    generate_incident_sql (fun _ => .ok sql) nlq = .ok (stripFences (pyStrip sql))
    ∧ query_incidents (fun _ => .ok sql) (fun _ => .ok docs) nlq = .ok docs
    ∧ query_incidents (fun _ => .error e) (fun _ => .ok docs) nlq = .error e :=
  ⟨rfl, rfl, rfl⟩

/-- C4 counterexample: on the direct HTTP read endpoint a missing `query`
parameter is not rejected — the handler substitutes the default query and
answers with `success:true`, contradicting the claim that both surfaces
reject with `"Query parameter is required"`. -/
theorem c4_counterexample_http_missing_query_not_rejected :
    (http_query_incidents [] (fun _ => .ok "SELECT * FROM c") (fun _ => .ok []) "T").status
        = 200
    ∧ (http_query_incidents [] (fun _ => .ok "SELECT * FROM c")
          (fun _ => .ok []) "T").body.lookup "success" = some (.bool true)
    ∧ (http_query_incidents [] (fun _ => .ok "SELECT * FROM c")
          (fun _ => .ok []) "T").body.lookup "query"
        = some (.str DEFAULT_INCIDENT_QUERY) := by
  refine ⟨rfl, rfl, rfl⟩

/-- C4 (amended): only the MCP surface rejects an empty or missing query
string with `{error: "Query parameter is required", success: false}` and
skips translation (the result does not depend on the translator or the
store); the direct HTTP endpoint instead substitutes the default query for
a missing parameter and passes an empty query string on to translation,
answering with `success:true`. -/
theorem c4_amended_only_mcp_rejects (s : String) (hs : pyStrip s = "")
    (translate : String → Except String String)
    (execQuery : String → Except String (List Json))
    (now sql : String) (docs : List Json) :
    mcp_query_incidents (.ok (.obj [("arguments", .obj [("query", .str s)])]))
        translate execQuery now
      = .obj [("error", .str "Query parameter is required"), ("success", .bool false)]
    ∧ mcp_query_incidents (.ok (.obj [])) translate execQuery now
      = .obj [("error", .str "Query parameter is required"), ("success", .bool false)]
    ∧ http_query_incidents [("query", s)] (fun _ => .ok sql) (fun _ => .ok docs) now
      = ⟨200, .obj [("success", .bool true), ("query", .str s),
          ("incidents", .arr docs), ("count", .num docs.length),
          ("timestamp", .str now)]⟩
    ∧ (http_query_incidents [] (fun _ => .ok sql) (fun _ => .ok docs) now).body.lookup
          "query" = some (.str DEFAULT_INCIDENT_QUERY) := by
  refine ⟨?_, ?_, ?_, ?_⟩
  · simp [mcp_query_incidents, mcp_try_body, argsGetQuery, Json.getD, Json.lookup,
      List.lookup, hs]
  · rfl
  · simp [http_query_incidents, query_incidents, generate_incident_sql, Json.lookup,
      List.lookup]
  · rfl

/-- C4 witness: the amended claim at the concrete empty query string. -/
theorem c4_amended_only_mcp_rejects_witness :
    mcp_query_incidents (.ok (.obj [("arguments", .obj [("query", .str "")])]))
        (fun _ => .ok "SQL") (fun _ => .ok []) "T"
      = .obj [("error", .str "Query parameter is required"), ("success", .bool false)] :=
  (c4_amended_only_mcp_rejects "" rfl (fun _ => .ok "SQL") (fun _ => .ok [])
    "T" "SQL" []).1

/-- A one-document store for the C5 counterexample. -/
def c5Store : List Json := [.obj [("id", .str "doc-1")]]

/-- C5 counterexample: an update targeting the nonexistent `document_id`
`"missing-id"` is caught by the generic exception handler and rendered as
the same 500 envelope (same status, same field names, `success:false`) as a
generic failure such as an unparseable request body — NotFound is not
reported distinctly. -/
theorem c5_counterexample_notfound_not_distinct :
    (http_update_incident_actions
        (.ok (.obj [("document_id", .str "missing-id"),
          ("action_status", .str "Completed")])) c5Store "T").1.status = 500
    ∧ (http_update_incident_actions (.error "boom") c5Store "T").1.status = 500
    ∧ (http_update_incident_actions
        (.ok (.obj [("document_id", .str "missing-id"),
          ("action_status", .str "Completed")])) c5Store "T").1.body.lookup "success"
        = some (.bool false)
    ∧ (http_update_incident_actions (.error "boom") c5Store "T").1.body.lookup "success"
        = some (.bool false)
    ∧ fieldKeys (http_update_incident_actions
        (.ok (.obj [("document_id", .str "missing-id"),
          ("action_status", .str "Completed")])) c5Store "T").1.body
        = fieldKeys (http_update_incident_actions (.error "boom") c5Store "T").1.body
    ∧ (http_update_incident_actions
        (.ok (.obj [("document_id", .str "missing-id"),
          ("action_status", .str "Completed")])) c5Store "T").1.body.lookup "error"
        = some (.str "NotFound: missing-id") := by
  refine ⟨rfl, rfl, rfl, rfl, rfl, rfl⟩

/-- C5 (amended): a request missing `document_id` or `action_status` is
rejected with a 400 validation error whose body does not depend on the
store and leaves the store untouched; a request targeting a nonexistent
`document_id` raises the store's not-found error, which the generic handler
renders as the same 500 failure envelope used for any other failure (not a
distinct NotFound response), also leaving the store untouched. -/
theorem c5_amended_validation_and_notfound (store : List Json) (now : String) :
    (∀ fs : List (String × Json),
      (fs.lookup "document_id" = none ∨ fs.lookup "action_status" = none) →
      http_update_incident_actions (.ok (.obj fs)) store now
        = (⟨400, .obj [("error",
            .str "Missing required fields: document_id, action_status")]⟩, store))
    ∧ (∀ did : String, did ≠ "" →
        store.find? (fun d => docId d == some did) = none →
        http_update_incident_actions
            (.ok (.obj [("document_id", .str did), ("action_status", .str "Completed")]))
            store now
          = (⟨500, .obj [("success", .bool false),
              ("error", .str ("NotFound: " ++ did)), ("timestamp", .str now)]⟩, store)) := by
  constructor
  · intro fs h
    rcases h with h | h <;>
      simp [http_update_incident_actions, http_update_incident_actions_try,
        Json.get, Json.getD, Json.lookup, h, Json.truthy, read_item]
  · intro did hdid hfind
    simp [http_update_incident_actions, http_update_incident_actions_try,
      Json.get, Json.getD, Json.lookup, List.lookup, Json.truthy, read_item,
      hdid, hfind]

/-- C5 witness: the amended claim at concrete inputs — a request without
`action_status` is rejected with 400, and an update of a nonexistent id on
an empty store yields the generic 500 envelope. -/
theorem c5_amended_validation_and_notfound_witness :
    http_update_incident_actions (.ok (.obj [("document_id", .str "d")])) [] "T"
      = (⟨400, .obj [("error",
          .str "Missing required fields: document_id, action_status")]⟩, [])
    ∧ http_update_incident_actions
        (.ok (.obj [("document_id", .str "ghost"), ("action_status", .str "Completed")]))
        [] "T"
      = (⟨500, .obj [("success", .bool false), ("error", .str "NotFound: ghost"),
          ("timestamp", .str "T")]⟩, []) :=
  ⟨(c5_amended_validation_and_notfound [] "T").1 [("document_id", .str "d")] (Or.inr rfl),
   (c5_amended_validation_and_notfound [] "T").2 "ghost" (by decide) rfl⟩

/-- C7: the sample endpoint clamps every caller-supplied limit into `[1,100]`
(in particular 0 becomes 1 and 1000 becomes 100), returns at most that many
records, and the returned sequence is monotonically non-increasing in
`severity_level`. -/
theorem c7_sample_clamp_and_order (store : List Json) (limit0 : Int) (now : String) :
    1 ≤ min (max limit0 1) 100
    ∧ min (max limit0 1) 100 ≤ 100
    ∧ (get_sample_incidents store (min (max limit0 1) 100).toNat).length
        ≤ (min (max limit0 1) 100).toNat
    ∧ (http_get_sample_incidents store (.ok limit0) now).status = 200
    ∧ (http_get_sample_incidents store (.ok limit0) now).body.lookup "sample_incidents"
        = some (.arr (get_sample_incidents store (min (max limit0 1) 100).toNat))
    ∧ List.Sorted (fun a b => severityLevelValue b ≤ severityLevelValue a)
        (get_sample_incidents store (min (max limit0 1) 100).toNat) := by
  refine ⟨by omega, by omega, ?_, rfl, ?_, ?_⟩
  · exact List.length_take_le _ _
  · simp [http_get_sample_incidents, Json.lookup, List.lookup]
  · have hsorted := @List.sorted_mergeSort _
      (fun a b => decide (severityLevelValue b ≤ severityLevelValue a))
      (fun a b c hab hbc => by
        simp only [decide_eq_true_eq] at *
        exact le_trans hbc hab)
      (fun a b => by
        simp only [Bool.or_eq_true, decide_eq_true_eq]
        exact le_total _ _)
      (store.filter isSecurityIncidentDoc)
    have htake := hsorted.sublist
      (List.take_sublist ((min (max limit0 1) 100).toNat) _)
    exact htake.imp (fun h => by simpa using h)

/-- Whether a JSON value is a Python dict. -/
def isObjJson : Json → Bool
  | .obj _ => true
  | _ => false

/-- The success value of `sentinel_normalize` is exactly the record of
`or`-based extractions of lines 471-476. -/
theorem sentinel_normalize_ok (body : Json) (n : NormalizedIncident)
    (h : sentinel_normalize body = .ok n) :
    n = { incident := pyOr (body.get "properties") body
        , title := pyOr ((pyOr (body.get "properties") body).get "title")
            ((pyOr (body.get "properties") body).get "incidentName")
        , severity := (pyOr (body.get "properties") body).getD "severity" (.str "Unknown")
        , incident_id := pyOr ((pyOr (body.get "properties") body).get "incidentId")
            ((pyOr (body.get "properties") body).get "id") } := by
  cases body with
  | obj fs =>
      simp only [sentinel_normalize] at h
      split at h
      · next gs heq =>
          injection h with h2
          subst h2
          rw [heq]
      · simp at h
  | null => simp [sentinel_normalize] at h
  | str s => simp [sentinel_normalize] at h
  | num x => simp [sentinel_normalize] at h
  | bool b => simp [sentinel_normalize] at h
  | arr xs => simp [sentinel_normalize] at h

/-- C8 counterexample: the claim says normalization never fails, but a
truthy non-dict `properties` value makes `incident.get(...)` raise
`AttributeError` (the endpoint answers 400), as does a non-dict payload. -/
theorem c8_counterexample_normalization_raises :
    sentinel_normalize (.obj [("properties", .str "x")]) = .error "AttributeError: get"
    ∧ sentinel_normalize (.str "payload") = .error "AttributeError: get" := by
  constructor <;> rfl

/-- C8 (amended): normalization is not total — a non-dict payload, or a
payload whose truthy `properties` value is not a dict, raises
`AttributeError` and the request fails.  On every payload on which it
succeeds, the documented precedence and defaults hold: a truthy
`properties` envelope is unwrapped first; `title` is taken from `title`,
falling back to `incidentName`; `incidentId` from `incidentId`, falling
back to `id`; `severity` defaults to `"Unknown"` when absent and is passed
through when present; `relatedEntities`/`relatedAlerts` default to empty
sequences in the stored document when absent. -/
theorem c8_amended_normalization_not_total (body : Json) (newId now : String)
    (analysis v : Json) (n : NormalizedIncident)
    (h : sentinel_normalize body = .ok n) :
    ((body.get "properties").truthy = true → n.incident = body.get "properties")
    ∧ ((body.get "properties").truthy = false → n.incident = body)
    ∧ ((n.incident.get "title").truthy = true → n.title = n.incident.get "title")
    ∧ ((n.incident.get "title").truthy = false →
        n.title = n.incident.get "incidentName")
    ∧ ((n.incident.get "incidentId").truthy = true →
        n.incident_id = n.incident.get "incidentId")
    ∧ ((n.incident.get "incidentId").truthy = false →
        n.incident_id = n.incident.get "id")
    ∧ (n.incident.lookup "severity" = none → n.severity = .str "Unknown")
    ∧ (n.incident.lookup "severity" = some v → n.severity = v)
    ∧ (n.incident.lookup "relatedEntities" = none →
        (store_incident_document newId now n.incident analysis).get "entities"
          = .arr [])
    ∧ (n.incident.lookup "relatedAlerts" = none →
        (store_incident_document newId now n.incident analysis).get "alerts"
          = .arr [])
    ∧ (∀ b2 : Json, isObjJson b2 = false →
        sentinel_normalize b2 = .error "AttributeError: get")
    ∧ (∀ fs2 : List (String × Json),
        isObjJson (pyOr ((Json.obj fs2).get "properties") (.obj fs2)) = false →
        sentinel_normalize (.obj fs2) = .error "AttributeError: get") := by
  have hinc : n.incident = pyOr (body.get "properties") body := by
    rw [sentinel_normalize_ok body n h]
  have htit : n.title = pyOr (n.incident.get "title") (n.incident.get "incidentName") := by
    rw [sentinel_normalize_ok body n h]
  have hsev : n.severity = n.incident.getD "severity" (.str "Unknown") := by
    rw [sentinel_normalize_ok body n h]
  have hid : n.incident_id = pyOr (n.incident.get "incidentId") (n.incident.get "id") := by
    rw [sentinel_normalize_ok body n h]
  refine ⟨?_, ?_, ?_, ?_, ?_, ?_, ?_, ?_, ?_, ?_, ?_, ?_⟩
  · intro h2
    rw [hinc]
    simp only [pyOr, h2, if_true]
  · intro h2
    rw [hinc]
    simp only [pyOr, h2, Bool.false_eq_true, if_false]
  · intro h2
    rw [htit]
    simp only [pyOr, h2, if_true]
  · intro h2
    rw [htit]
    simp only [pyOr, h2, Bool.false_eq_true, if_false]
  · intro h2
    rw [hid]
    simp only [pyOr, h2, if_true]
  · intro h2
    rw [hid]
    simp only [pyOr, h2, Bool.false_eq_true, if_false]
  · intro h2
    rw [hsev]
    simp only [Json.getD, h2, Option.getD_none]
  · intro h2
    rw [hsev]
    simp only [Json.getD, h2, Option.getD_some]
  · intro h2
    rw [Json.lookup.eq_def] at h2
    simp [store_incident_document, Json.get, Json.getD, Json.lookup, List.lookup,
      h2, Option.getD_none]
  · intro h2
    rw [Json.lookup.eq_def] at h2
    simp [store_incident_document, Json.get, Json.getD, Json.lookup, List.lookup,
      h2, Option.getD_none]
  · intro b2 hb2
    cases b2 <;> simp_all [sentinel_normalize, isObjJson]
  · intro fs2 hob
    simp only [sentinel_normalize]
    split
    · next gs heq =>
        rw [heq] at hob
        simp [isObjJson] at hob
    · rfl

/-- A Sentinel payload wrapped in a `properties` envelope, with aliases and
absent fields, for the C8 witness. -/
def c8Body : Json :=
  .obj [("properties", .obj [("incidentName", .str "Phish"), ("id", .str "I-1")])]

/-- The normalized record produced for `c8Body`. -/
def c8n : NormalizedIncident :=
  { incident := .obj [("incidentName", .str "Phish"), ("id", .str "I-1")]
  , title := .str "Phish"
  , severity := .str "Unknown"
  , incident_id := .str "I-1" }

/-- C8 witness: the amended claim at a concrete wrapped payload — fall back
to `incidentName` and `id`, default severity to `"Unknown"`, default
`relatedEntities` to the empty sequence in the stored document — and at a
concrete non-dict payload, which raises. -/
theorem c8_amended_normalization_not_total_witness :
    c8n.title = c8n.incident.get "incidentName"
    ∧ c8n.severity = .str "Unknown"
    ∧ c8n.incident_id = c8n.incident.get "id"
    ∧ (store_incident_document "u" "t" c8n.incident (.obj [])).get "entities" = .arr []
    ∧ sentinel_normalize (.num 3) = .error "AttributeError: get" :=
  ⟨(c8_amended_normalization_not_total c8Body "u" "t" (.obj []) .null c8n rfl).2.2.2.1 rfl,
   (c8_amended_normalization_not_total c8Body "u" "t"
     (.obj []) .null c8n rfl).2.2.2.2.2.2.1 rfl,
   (c8_amended_normalization_not_total c8Body "u" "t"
     (.obj []) .null c8n rfl).2.2.2.2.2.1 rfl,
   (c8_amended_normalization_not_total c8Body "u" "t"
     (.obj []) .null c8n rfl).2.2.2.2.2.2.2.2.1 rfl,
   (c8_amended_normalization_not_total c8Body "u" "t"
     (.obj []) .null c8n rfl).2.2.2.2.2.2.2.2.2.2.1 (.num 3) rfl⟩

/-- Every `.ok` result of the MCP `try` block is one of the two envelopes,
each carrying a boolean `success` field. -/
theorem mcp_try_body_success_field (parseReq : Except String Json)
    (translate : String → Except String String)
    (execQuery : String → Except String (List Json)) (now : String) (j : Json)
    (h : mcp_try_body parseReq translate execQuery now = .ok j) :
    j.lookup "success" = some (.bool false) ∨ j.lookup "success" = some (.bool true) := by
  rcases parseReq with e | req
  · simp [mcp_try_body] at h
  · cases req with
    | null => simp [mcp_try_body] at h
    | str s => simp [mcp_try_body] at h
    | num n => simp [mcp_try_body] at h
    | bool b => simp [mcp_try_body] at h
    | arr xs => simp [mcp_try_body] at h
    | obj fs =>
        rcases hq : argsGetQuery ((Json.obj fs).getD "arguments" (.obj [])) with e2 | raw
        · simp [mcp_try_body, hq] at h
        · by_cases hempty : pyStrip raw = ""
          · simp [mcp_try_body, hq, hempty] at h
            subst h
            simp [Json.lookup, List.lookup]
          · rcases hqi : query_incidents translate execQuery (pyStrip raw) with e3 | incidents
            · simp [mcp_try_body, hq, hempty, hqi] at h
            · simp [mcp_try_body, hq, hempty, hqi] at h
              subst h
              simp [Json.lookup, List.lookup]

/-- C10: for every input, the MCP query tool returns an envelope (it never
raises): the result always carries a boolean `success` field, and whenever
the `try` block raises, the returned envelope is exactly the failure
envelope with `success:false` and a human-readable error message. -/
theorem c10_mcp_always_envelope (parseReq : Except String Json)
    (translate : String → Except String String)
    (execQuery : String → Except String (List Json)) (now : String) :
    (∃ b : Bool, (mcp_query_incidents parseReq translate execQuery now).lookup "success"
        = some (.bool b))
    ∧ ∀ e, mcp_try_body parseReq translate execQuery now = .error e →
        mcp_query_incidents parseReq translate execQuery now
          = .obj [("error", .str ("Error querying incidents: " ++ e)),
              ("success", .bool false), ("timestamp", .str now)] := by
  constructor
  · rcases htb : mcp_try_body parseReq translate execQuery now with e | j
    · exact ⟨false, by simp [mcp_query_incidents, htb, Json.lookup, List.lookup]⟩
    · rcases mcp_try_body_success_field parseReq translate execQuery now j htb with h | h
      · exact ⟨false, by simp [mcp_query_incidents, htb, h]⟩
      · exact ⟨true, by simp [mcp_query_incidents, htb, h]⟩
  · intro e he
    simp [mcp_query_incidents, he]

/-- C10 witness: an unparseable MCP request string yields the failure
envelope with `success:false`. -/
theorem c10_mcp_always_envelope_witness :
    mcp_query_incidents (.error "boom") (fun _ => .error "x") (fun _ => .ok []) "T"
      = .obj [("error", .str "Error querying incidents: boom"),
          ("success", .bool false), ("timestamp", .str "T")] :=
  (c10_mcp_always_envelope (.error "boom") (fun _ => .error "x")
    (fun _ => .ok []) "T").2 "boom" rfl
